import Mathlib

/-!
Shallow embedding of the SSH routing scripts `ssh_router.py` and
`ssh_jump_exec.py` (route resolution, address extraction, transport command
construction, and the preflight / dispatch / record state machine), together
with theorems about the spec's claims.

Strings are modelled as `List Char` (`Str`) so that Python's `str.split`
behaviour can be reasoned about by structural induction.  Remote-process
invocations (`subprocess.run`) are modelled by an environment record that
fixes the outcome of each invocation; the model functions return the computed
boolean, the accumulated result dictionary, and the ordered trace of external
actions performed.
-/

namespace SSHRouterSpec

/-- Strings, modelled as lists of characters. -/
abbrev Str := List Char

/-- Python `s.split(sep)` for a single-character separator: splits at every
occurrence of `sep`; the result is always non-empty, and empty pieces are
kept (`"".split(c) == [""]`, `"@x".split('@') == ["", "x"]`). -/
def splitOnChar (sep : Char) : Str → List Str
  | [] => [[]]
  | c :: cs =>
    let rest := splitOnChar sep cs
    if c == sep then [] :: rest
    else
      match rest with
      | [] => [[c]]
      | r :: rs => (c :: r) :: rs

/-- One dotted-quad octet, per `ipaddress._parse_octet` (CPython ≥ 3.9):
non-empty, ASCII digits only, at most 3 characters, no leading zero, and
value at most 255. -/
def parseOctet (s : Str) : Option Nat :=
  if s.isEmpty then none
  else if !s.all Char.isDigit then none
  else if s.length > 3 then none
  else if s.length > 1 && s.headD '0' == '0' then none
  else
    let v := s.foldl (fun acc c => acc * 10 + (c.toNat - '0'.toNat)) 0
    if v > 255 then none else some v

/-- `ipaddress.ip_address` restricted to IPv4 dotted-quad literals, returning
the 32-bit value.  (In `extract_ip` the argument has already been cut at the
first `':'`, so an IPv6 literal can never reach this check intact; in
`ip_in_network` the routing key is produced by `extract_ip` or by
`socket.gethostbyname`, which yields IPv4 only.) -/
def parseIPv4 (s : Str) : Option Nat :=
  match (splitOnChar '.' s).mapM parseOctet with
  | some [a, b, c, d] => some (((a * 256 + b) * 256 + c) * 256 + d)
  | _ => none

/-- A prefix length `p` in `a.b.c.d/p`: ASCII digits only, value ≤ 32
(dotted-netmask mask forms are out of modelled scope and parse as failures). -/
def parsePrefixLen (s : Str) : Option Nat :=
  if s.isEmpty then none
  else if !s.all Char.isDigit then none
  else
    let v := s.foldl (fun acc c => acc * 10 + (c.toNat - '0'.toNat)) 0
    if v ≤ 32 then some v else none

/-- `ipaddress.ip_network` (strict, IPv4): at most one `/`; a bare address
means `/32`; with `strict=True` (the default used by the code) the host bits
of the network address must be zero, otherwise parsing fails. -/
def parseIPv4Network (s : Str) : Option (Nat × Nat) :=
  match splitOnChar '/' s with
  | [a] => (parseIPv4 a).map (fun ip => (ip, 32))
  | [a, p] =>
    match parseIPv4 a, parsePrefixLen p with
    | some ip, some pl => if ip % 2 ^ (32 - pl) == 0 then some (ip, pl) else none
    | _, _ => none
  | _ => none

/-- `SSHRouter.ip_in_network`: `ip_address(ip) in ip_network(network)`, with
every parse error (and the version-mismatch case, where Python's
`__contains__` returns `False`) mapped to `false` by the bare `except`. -/
def ip_in_network (ip network : Str) : Bool :=
  match parseIPv4 ip, parseIPv4Network network with
  | some a, some (n, pl) => a / 2 ^ (32 - pl) == n / 2 ^ (32 - pl)
  | _, _ => false

/-- `route.get('network')` may be absent (`None`); `ip_in_network(ip, None)`
raises inside `ip_network` and is caught, giving `False`. -/
def ip_in_network_opt (ip : Str) : Option Str → Bool
  | some n => ip_in_network ip n
  | none => false

/-- Python truthiness of an optional string: `None` and `""` are falsy. -/
def strTruthy : Option Str → Bool
  | none => false
  | some s => !s.isEmpty

/-- One entry of the routes table: the `network` selector and the `via`
chain, each possibly absent (`dict.get`).  The `description` field is only
printed by `list_routes` and plays no role in resolution, so it is omitted. -/
structure Route where
  network : Option Str
  via : Option Str
deriving DecidableEq

/-- The sentinel selector `"default"`. -/
def defaultStr : Str := "default".toList

/-- The sentinel selector `"direct"`. -/
def directStr : Str := "direct".toList

/-- A route is a CIDR match candidate for `ip` when its selector is neither
sentinel `"default"` nor `"direct"` and the containment test succeeds. -/
def isMatchCandidate (ip : Str) (r : Route) : Bool :=
  r.network != some defaultStr && r.network != some directStr
    && ip_in_network_opt ip r.network

/-- The loop of `SSHRouter.find_route`, with the running `default_route`
variable made explicit.  Result `none` models `sys.exit(1)`
(`RouteNotFoundError`); `some v` models returning the chain `v` (itself an
`Option Str`, since a matched route's `via` key may be absent). -/
def findRouteAux (targetIP : Str) : List Route → Option Str → Option (Option Str)
  | [], dflt => if strTruthy dflt then some dflt else none
  | r :: rest, dflt =>
    if r.network == some defaultStr then findRouteAux targetIP rest r.via
    else if r.network == some directStr then findRouteAux targetIP rest dflt
    else if ip_in_network_opt targetIP r.network then some r.via
    else findRouteAux targetIP rest dflt

/-- `SSHRouter.find_route` (`default_route` starts as `None`). -/
def find_route (targetIP : Str) (routes : List Route) : Option (Option Str) :=
  findRouteAux targetIP routes none

/-- The value held by the `default_route` variable after the loop: the `via`
of the last-declared `"default"` entry (each new `"default"` overwrites the
previous one, even with an absent `via`). -/
def lastDefaultVia (routes : List Route) : Option Str :=
  routes.foldl (fun acc r => if r.network == some defaultStr then r.via else acc) none

/-- `SSHRouter.extract_ip`.  `dns` models `socket.gethostbyname`: `some ip`
on successful resolution, `none` when it raises.  The function is total: a
failed resolution returns the stripped token verbatim, it never aborts. -/
def extract_ip (dns : Str → Option Str) (target_host : Str) : Str :=
  let addr := (splitOnChar '@' target_host).getLastD []
  let addr := (splitOnChar ':' addr).headD []
  if (parseIPv4 addr).isSome then addr
  else
    match dns addr with
    | some ip => ip
    | none => addr

/-- `SSHRouter.build_ssh_command` for a list-shaped `command_args`.
`jump_chain` is the resolved chain string; `use_jump` is the keyword
argument (every call site in the source passes `use_jump = (jump_chain !=
'direct')`, apart from the default `True`, which conjoins with the same test
inside). -/
def build_ssh_command (ssh_key : Option Str) (jump_chain : Str) (target_host : Str)
    (command_args : List Str) (use_jump : Bool) : List Str :=
  ["ssh".toList]
    ++ (match ssh_key with
        | some k => ["-i".toList, k]
        | none => [])
    ++ ["-o".toList, "StrictHostKeyChecking=accept-new".toList,
        "-o".toList, "ConnectTimeout=10".toList]
    ++ (if use_jump && jump_chain != directStr then ["-J".toList, jump_chain] else [])
    ++ [target_host]
    ++ command_args

/-- Outcome of one `subprocess.run` invocation: a normal return with an exit
code, or a raised exception (`TimeoutExpired`, launch failure, …) carrying
`str(e)`. -/
inductive ProcOutcome where
  | exited (code : Int)
  | failed (msg : Str)
deriving DecidableEq

/-- External world of one run: the outcome of each remote invocation and the
configuration bits that control the flow.  The outcomes of the `chmod` and
`rm -f` invocations are discarded by the source (`subprocess.run(...,
capture_output=True)` with the result unused), so only the cleanup exit code
is carried, to state that it cannot influence the run. -/
structure Env where
  connectivity : ProcOutcome
  upload : ProcOutcome
  execution : ProcOutcome
  execOut : Str
  cleanup_exit : Int
  save_output : Bool
deriving DecidableEq

/-- The mutable `self.result` fields that the control flow touches
(`success`, `output`, `exit_code`, `errors`); the static identification
fields are irrelevant to the claims and omitted. -/
structure ResultState where
  success : Bool
  output : Str
  exit_code : Option Int
  errors : List Str
deriving DecidableEq

/-- `self.result` as initialised in `__init__`. -/
def initResult : ResultState := ⟨false, [], none, []⟩

/-- Externally visible actions, in the order the run performs them. -/
inductive Action where
  | probe
  | uploadScript
  | chmodScript
  | runPayload
  | cleanupScript
  | saveAudit
deriving DecidableEq

/-- `SSHRouter.test_connectivity`: one probe invocation; exit code 0 is
success, a nonzero exit appends `"Connection test failed"`, an exception
appends `str(e)`. -/
def test_connectivity (env : Env) (st : ResultState) : Bool × ResultState × List Action :=
  match env.connectivity with
  | .exited c =>
    if c == 0 then (true, st, [.probe])
    else (false, { st with errors := st.errors ++ ["Connection test failed".toList] }, [.probe])
  | .failed msg => (false, { st with errors := st.errors ++ [msg] }, [.probe])

/-- `SSHRouter.execute_command`: one payload invocation; on normal return it
records output, exit code and `success = (returncode == 0)`; on exception it
appends the error and leaves those fields untouched. -/
def execute_command (env : Env) (st : ResultState) : Bool × ResultState × List Action :=
  match env.execution with
  | .exited c =>
    ((c == 0 : Bool),
     { st with output := env.execOut, exit_code := some c, success := c == 0 },
     [.runPayload])
  | .failed msg => (false, { st with errors := st.errors ++ [msg] }, [.runPayload])

/-- `SSHRouter.execute_script`: scp upload, then (only if the upload exited
0) chmod, execution, and — only if the execution returned normally and
`keep_script` is unset — the `rm -f` cleanup.  A nonzero upload exit prints
a message and returns `False` without touching the result state; an
exception anywhere (scp launch failure, execution timeout) jumps to the
`except` handler, which appends `str(e)` — in particular an execution
timeout skips the cleanup block, since there is no `finally`. -/
def execute_script (env : Env) (st : ResultState) (keep_script : Bool) :
    Bool × ResultState × List Action :=
  match env.upload with
  | .exited uc =>
    if uc != 0 then (false, st, [.uploadScript])
    else
      match env.execution with
      | .exited c =>
        ((c == 0 : Bool),
         { st with output := env.execOut, exit_code := some c, success := c == 0 },
         if keep_script then [.uploadScript, .chmodScript, .runPayload]
         else [.uploadScript, .chmodScript, .runPayload, .cleanupScript])
      | .failed msg =>
        (false, { st with errors := st.errors ++ [msg] },
         [.uploadScript, .chmodScript, .runPayload])
  | .failed msg => (false, { st with errors := st.errors ++ [msg] }, [.uploadScript])

/-- `SSHRouter.save_output_file`: writes the audit record unless
`save_output` is off (a write failure only prints to stderr and changes
nothing, so it is not modelled as an outcome). -/
def save_output_file (env : Env) : List Action :=
  if env.save_output then [.saveAudit] else []

/-- The payload selection of a run: the `command` and `script` constructor
arguments (`main` guarantees at least one is truthy in execute mode). -/
structure RunConfig where
  command : Option Str
  script : Option Str
deriving DecidableEq

/-- `SSHRouter.run`: preflight probe; on probe failure persist the partial
record and stop; otherwise dispatch on the truthy payload (command first),
persist, and return the payload's success.  With neither payload truthy it
returns `False` without persisting. -/
def run (env : Env) (cfg : RunConfig) (keep_script : Bool) :
    Bool × ResultState × List Action :=
  match test_connectivity env initResult with
  | (ok, st, acts) =>
    if !ok then (false, st, acts ++ save_output_file env)
    else if strTruthy cfg.command then
      match execute_command env st with
      | (s, st2, a2) => (s, st2, acts ++ a2 ++ save_output_file env)
    else if strTruthy cfg.script then
      match execute_script env st keep_script with
      | (s, st2, a2) => (s, st2, acts ++ a2 ++ save_output_file env)
    else (false, st, acts)

/-- `main` in list mode: the router is constructed with the fixed target
`'dummy@localhost'`, and the constructor unconditionally runs `extract_ip`
and `find_route` before `list_routes` is reached.  `none` models
`sys.exit(1)` inside `find_route` (nothing is listed); `some routes` models
reaching `list_routes`, which prints every route. -/
def main_list_mode (dns : Str → Option Str) (routes : List Route) : Option (List Route) :=
  match find_route (extract_ip dns ("dummy@localhost".toList)) routes with
  | some _ => some routes
  | none => none

end SSHRouterSpec

namespace SSHJumpExecutor

open SSHRouterSpec

/-- `/tmp/{script_name}.{os.getpid()}`, the remote temporary path built by
`SSHJumpExecutor.execute_script` (`script_name` is the base name of the
local script). -/
def remoteScriptPath (script_name : Str) (pid : Nat) : Str :=
  "/tmp/".toList ++ script_name ++ '.' :: (Nat.repr pid).toList

/-- External world of one `ssh_jump_exec.py` run; `uploadStderr` is the
captured stderr of a failed scp, interpolated into the recorded error. -/
structure JEnv where
  connectivity : ProcOutcome
  upload : ProcOutcome
  uploadStderr : Str
  execution : ProcOutcome
  execOut : Str
  script_name : Str
  pid : Nat
  save_output : Bool
deriving DecidableEq

/-- The flow-dependent `self.result` fields of `SSHJumpExecutor`, including
`remote_script_path`, which is absent (`none`) until assigned. -/
structure JResultState where
  success : Bool
  output : Str
  exit_code : Option Int
  remote_script_path : Option Str
  errors : List Str
deriving DecidableEq

/-- `self.result` as initialised in `SSHJumpExecutor.__init__` (no
`remote_script_path` key). -/
def initJResult : JResultState := ⟨false, [], none, none, []⟩

/-- `SSHJumpExecutor.test_connectivity` (the recorded message interpolates
the probe's stderr; the exact text is irrelevant to the claims and kept
abstract as a fixed marker plus nothing). -/
def test_connectivity (env : JEnv) (st : JResultState) : Bool × JResultState × List Action :=
  match env.connectivity with
  | .exited c =>
    if c == 0 then (true, st, [.probe])
    else (false, { st with errors := st.errors ++ ["Connection test failed: ".toList] }, [.probe])
  | .failed msg => (false, { st with errors := st.errors ++ [msg] }, [.probe])

/-- `SSHJumpExecutor.execute_command`. -/
def execute_command (env : JEnv) (st : JResultState) : Bool × JResultState × List Action :=
  match env.execution with
  | .exited c =>
    ((c == 0 : Bool),
     { st with output := env.execOut, exit_code := some c, success := c == 0 },
     [.runPayload])
  | .failed msg => (false, { st with errors := st.errors ++ [msg] }, [.runPayload])

/-- `SSHJumpExecutor.execute_script`: unlike the router variant, a nonzero
scp exit appends `"Upload failed: {stderr}"` to `errors`; after a normal
execution return it assigns `output`, `exit_code`, `success` and
`remote_script_path` (for any exit code), then cleans up unless
`keep_script`.  On an execution exception `remote_script_path` is never
assigned and cleanup is skipped (no `finally`). -/
def execute_script (env : JEnv) (st : JResultState) (keep_script : Bool) :
    Bool × JResultState × List Action :=
  match env.upload with
  | .exited uc =>
    if uc != 0 then
      (false, { st with errors := st.errors ++ ["Upload failed: ".toList ++ env.uploadStderr] },
       [.uploadScript])
    else
      match env.execution with
      | .exited c =>
        ((c == 0 : Bool),
         { st with output := env.execOut, exit_code := some c, success := c == 0,
                   remote_script_path := some (remoteScriptPath env.script_name env.pid) },
         if keep_script then [.uploadScript, .chmodScript, .runPayload]
         else [.uploadScript, .chmodScript, .runPayload, .cleanupScript])
      | .failed msg =>
        (false, { st with errors := st.errors ++ [msg] },
         [.uploadScript, .chmodScript, .runPayload])
  | .failed msg => (false, { st with errors := st.errors ++ [msg] }, [.uploadScript])

/-- `SSHJumpExecutor.save_output_file`. -/
def save_output_file (env : JEnv) : List Action :=
  if env.save_output then [.saveAudit] else []

/-- `SSHJumpExecutor.run`: same preflight / dispatch / record shape as
`SSHRouter.run`. -/
def run (env : JEnv) (cfg : RunConfig) (keep_script : Bool) :
    Bool × JResultState × List Action :=
  match test_connectivity env initJResult with
  | (ok, st, acts) =>
    if !ok then (false, st, acts ++ save_output_file env)
    else if strTruthy cfg.command then
      match execute_command env st with
      | (s, st2, a2) => (s, st2, acts ++ a2 ++ save_output_file env)
    else if strTruthy cfg.script then
      match execute_script env st keep_script with
      | (s, st2, a2) => (s, st2, acts ++ a2 ++ save_output_file env)
    else (false, st, acts)

end SSHJumpExecutor

namespace SSHRouterSpec

/-- Sanity checks of the IPv4/CIDR fragment against `ipaddress` behaviour,
and spec scenarios 1–3. -/
theorem ip_model_sanity :
    parseIPv4 "10.1.2.3".toList = some (10 * 2 ^ 24 + 1 * 2 ^ 16 + 2 * 2 ^ 8 + 3) ∧
    ip_in_network "10.1.2.3".toList "10.0.0.0/8".toList = true ∧
    ip_in_network "192.168.1.1".toList "10.0.0.0/8".toList = false ∧
    ip_in_network "10.1.2.3".toList "10.0.0.1/8".toList = false ∧
    ip_in_network "localhost".toList "10.0.0.0/8".toList = false := by
  decide

theorem find_route_scenarios :
    find_route "10.1.2.3".toList
      [⟨some "10.0.0.0/8".toList, some "jumpA".toList⟩,
       ⟨some "default".toList, some "bastion".toList⟩] = some (some "jumpA".toList) ∧
    find_route "192.168.1.1".toList
      [⟨some "10.0.0.0/8".toList, some "jumpA".toList⟩,
       ⟨some "default".toList, some "bastion".toList⟩] = some (some "bastion".toList) ∧
    find_route "192.168.1.1".toList [⟨some "direct".toList, some "direct".toList⟩] = none := by
  decide

theorem splitOnChar_ne_nil (sep : Char) (s : Str) : splitOnChar sep s ≠ [] := by
  cases s with
  | nil => simp [splitOnChar]
  | cons c cs =>
    simp only [splitOnChar]
    split
    · simp
    · split <;> simp

theorem splitOnChar_not_mem (sep : Char) (s : Str) (h : sep ∉ s) : splitOnChar sep s = [s] := by
  induction s with
  | nil => rfl
  | cons c cs ih =>
    simp only [List.mem_cons, not_or] at h
    have hc : (c == sep) = false := by
      simp only [beq_eq_false_iff_ne]
      exact fun e => h.1 e.symm
    simp [splitOnChar, hc, ih h.2]

theorem splitOnChar_append_cons (sep : Char) (a b : Str) :
    splitOnChar sep (a ++ sep :: b) = splitOnChar sep a ++ splitOnChar sep b := by
  induction a with
  | nil => simp [splitOnChar]
  | cons c a' ih =>
    cases hc : (c == sep) with
    | true =>
      have : c = sep := by simpa [beq_iff_eq] using hc
      simp [splitOnChar, hc, ih, this]
    | false =>
      obtain ⟨r, rs, hrr⟩ : ∃ r rs, splitOnChar sep a' = r :: rs := by
        cases hsp : splitOnChar sep a' with
        | nil => exact absurd hsp (splitOnChar_ne_nil _ _)
        | cons r rs => exact ⟨r, rs, rfl⟩
      simp [splitOnChar, hc, ih, hrr]

theorem getLastD_splitOnChar_append (sep : Char) (a b : Str) (hb : sep ∉ b) :
    (splitOnChar sep (a ++ sep :: b)).getLastD [] = b := by
  rw [splitOnChar_append_cons, splitOnChar_not_mem sep b hb]
  simp

theorem headD_splitOnChar_cons (sep : Char) (a b : Str) (ha : sep ∉ a) :
    (splitOnChar sep (a ++ sep :: b)).headD [] = a := by
  rw [splitOnChar_append_cons, splitOnChar_not_mem sep a ha]
  rfl

theorem directStr_ne_defaultStr : directStr ≠ defaultStr := by decide

theorem findRouteAux_no_candidate (ip : Str) (routes : List Route) :
    ∀ dflt, (∀ r ∈ routes, isMatchCandidate ip r = false) →
      findRouteAux ip routes dflt =
        (if strTruthy (routes.foldl
              (fun acc r => if r.network == some defaultStr then r.via else acc) dflt)
         then some (routes.foldl
              (fun acc r => if r.network == some defaultStr then r.via else acc) dflt)
         else none) := by
  induction routes with
  | nil => intro dflt _; rfl
  | cons r rest ih =>
    intro dflt h
    have hr := h r (List.mem_cons_self r rest)
    have hrest : ∀ q ∈ rest, isMatchCandidate ip q = false :=
      fun q hq => h q (List.mem_cons_of_mem r hq)
    by_cases h1 : r.network = some defaultStr
    · simp [findRouteAux, h1, ih r.via hrest]
    · by_cases h2 : r.network = some directStr
      · simp [findRouteAux, h1, h2, directStr_ne_defaultStr, ih dflt hrest]
      · have h3 : ip_in_network_opt ip r.network = false := by
          simpa [isMatchCandidate, h1, h2] using hr
        simp [findRouteAux, h1, h2, h3, ih dflt hrest]

theorem findRouteAux_first_match (ip : Str) (r : Route) (post : List Route)
    (hr : isMatchCandidate ip r = true) :
    ∀ (pre : List Route) dflt, (∀ q ∈ pre, isMatchCandidate ip q = false) →
      findRouteAux ip (pre ++ r :: post) dflt = some r.via := by
  have hr' := hr
  simp only [isMatchCandidate, Bool.and_eq_true, bne_iff_ne, ne_eq] at hr'
  have h1 : ¬r.network = some defaultStr := hr'.1.1
  have h2 : ¬r.network = some directStr := hr'.1.2
  have h3 : ip_in_network_opt ip r.network = true := hr'.2
  intro pre
  induction pre with
  | nil => intro dflt _; simp [findRouteAux, h1, h2, h3]
  | cons q pre' ih =>
    intro dflt h
    have hq := h q (List.mem_cons_self q pre')
    have hpre' : ∀ p ∈ pre', isMatchCandidate ip p = false :=
      fun p hp => h p (List.mem_cons_of_mem q hp)
    by_cases hq1 : q.network = some defaultStr
    · simpa [findRouteAux, hq1] using ih q.via hpre'
    · by_cases hq2 : q.network = some directStr
      · simpa [findRouteAux, hq1, hq2, directStr_ne_defaultStr] using ih dflt hpre'
      · have hq3 : ip_in_network_opt ip q.network = false := by
          simpa [isMatchCandidate, hq1, hq2] using hq
        simpa [findRouteAux, hq1, hq2, hq3] using ih dflt hpre'

/-- C1: for every target IP and route table, `find_route` returns the `via`
of the first route in declared order that is a CIDR match candidate
(selector neither `"default"` nor `"direct"`, containment test true),
regardless of what follows it — in particular of any later overlapping CIDR
entries — and regardless of any earlier `"default"`/`"direct"`/non-matching
entries. -/
theorem find_route_first_cidr_match (ip : Str) (pre : List Route) (r : Route) (post : List Route)
    (hpre : ∀ q ∈ pre, isMatchCandidate ip q = false)
    (hr : isMatchCandidate ip r = true) :
    find_route ip (pre ++ r :: post) = some r.via :=
  findRouteAux_first_match ip r post hr pre none hpre

/-- Witness for C1: `10.1.2.3` against a table whose first CIDR match
`10.0.0.0/8 → jumpA` is followed by the more specific overlapping entry
`10.1.0.0/16 → jumpB`; the earlier `default` and `direct` entries are never
match candidates.  First match wins: the result is `jumpA`. -/
theorem find_route_first_cidr_match_witness :
    find_route "10.1.2.3".toList
      [⟨some "default".toList, some "bastion".toList⟩,
       ⟨some "direct".toList, some "direct".toList⟩,
       ⟨some "10.0.0.0/8".toList, some "jumpA".toList⟩,
       ⟨some "10.1.0.0/16".toList, some "jumpB".toList⟩] = some (some "jumpA".toList) :=
  find_route_first_cidr_match "10.1.2.3".toList
    [⟨some "default".toList, some "bastion".toList⟩,
     ⟨some "direct".toList, some "direct".toList⟩]
    ⟨some "10.0.0.0/8".toList, some "jumpA".toList⟩
    [⟨some "10.1.0.0/16".toList, some "jumpB".toList⟩]
    (by decide) (by decide)

/-- C2 counterexample: the table `[{network: "default", via: ""}]` has a
`"default"` entry and no CIDR entry containing `192.168.1.1`, yet
`find_route` does not return that entry's `via` — it fails (`sys.exit(1)`),
because the recorded fallback is tested for Python truthiness
(`if default_route:`) and the empty string is falsy. -/
theorem find_route_default_counterexample :
    (∃ r ∈ [(⟨some "default".toList, some []⟩ : Route)], r.network = some "default".toList) ∧
      (∀ r ∈ [(⟨some "default".toList, some []⟩ : Route)],
        isMatchCandidate "192.168.1.1".toList r = false) ∧
      find_route "192.168.1.1".toList [⟨some "default".toList, some []⟩] = none := by
  refine ⟨⟨⟨some "default".toList, some []⟩, by simp, rfl⟩, ?_, rfl⟩
  decide

theorem lastDefaultVia_eq_none (routes : List Route)
    (h : ∀ r ∈ routes, r.network ≠ some defaultStr) : lastDefaultVia routes = none := by
  unfold lastDefaultVia
  induction routes with
  | nil => rfl
  | cons r rest ih =>
    have hr := h r (List.mem_cons_self r rest)
    rw [List.foldl_cons]
    simp only [beq_eq_false_iff_ne.mpr hr, Bool.false_eq_true, if_false]
    exact ih (fun q hq => h q (List.mem_cons_of_mem r hq))

/-- C2 amended: if no route is a CIDR match candidate for the target IP,
`find_route` returns the `via` of the **last**-declared `"default"` entry
provided that `via` is present and non-empty (Python-truthy); otherwise —
including when a `"default"` entry exists but the last one's `via` is absent
or the empty string — it fails with `RouteNotFoundError` (`sys.exit(1)`),
before any network action (resolution happens in the constructor, ahead of
every `subprocess` invocation). -/
theorem find_route_fallback_truthy_default (ip : Str) (routes : List Route)
    (h : ∀ r ∈ routes, isMatchCandidate ip r = false) :
    find_route ip routes =
      if strTruthy (lastDefaultVia routes) then some (lastDefaultVia routes) else none :=
  findRouteAux_no_candidate ip routes none h

/-- Witness for C2's amended statement: `192.168.1.1` matches no CIDR entry
of the table, so the last-declared `default`'s non-empty `via` (`bastion2`)
is returned. -/
theorem find_route_fallback_truthy_default_witness :
    find_route "192.168.1.1".toList
      [⟨some "10.0.0.0/8".toList, some "jumpA".toList⟩,
       ⟨some "default".toList, some "bastion1".toList⟩,
       ⟨some "default".toList, some "bastion2".toList⟩] = some (some "bastion2".toList) :=
  (find_route_fallback_truthy_default "192.168.1.1".toList
    [⟨some "10.0.0.0/8".toList, some "jumpA".toList⟩,
     ⟨some "default".toList, some "bastion1".toList⟩,
     ⟨some "default".toList, some "bastion2".toList⟩] (by decide)).trans (by decide)


/-- C3: for every `user@host[:port]` target string (`host` free of `@` and
`:`, `port` free of `@`), `extract_ip` strips the `user@` prefix and the
trailing `:port` (first conjunct; the second covers the port-less form),
returns the remaining token directly when it parses as a literal IP address,
otherwise consults DNS, and when DNS resolution fails returns the hostname
token verbatim — it is a total function and never aborts. -/
theorem extract_ip_spec (dns : Str → Option Str) (user host port : Str)
    (h1 : '@' ∉ host) (h2 : ':' ∉ host) (h3 : '@' ∉ port) :
    extract_ip dns (user ++ '@' :: (host ++ ':' :: port)) =
      (if (parseIPv4 host).isSome then host
       else match dns host with
            | some ip => ip
            | none => host) ∧
    extract_ip dns (user ++ '@' :: host) =
      (if (parseIPv4 host).isSome then host
       else match dns host with
            | some ip => ip
            | none => host) := by
  constructor
  · have hb : '@' ∉ host ++ ':' :: port := by
      simp only [List.mem_append, List.mem_cons, not_or]
      exact ⟨h1, by decide, h3⟩
    have key : (splitOnChar ':'
        ((splitOnChar '@' (user ++ '@' :: (host ++ ':' :: port))).getLastD [])).headD [] = host := by
      rw [getLastD_splitOnChar_append '@' user (host ++ ':' :: port) hb,
        headD_splitOnChar_cons ':' host port h2]
    simp only [extract_ip, key]
  · have key : (splitOnChar ':'
        ((splitOnChar '@' (user ++ '@' :: host)).getLastD [])).headD [] = host := by
      rw [getLastD_splitOnChar_append '@' user host h1, splitOnChar_not_mem ':' host h2]
      rfl
    simp only [extract_ip, key]

/-- Witness for C3: `user@db01:22` with failing DNS resolves to the stripped
hostname token `db01` verbatim. -/
theorem extract_ip_spec_witness :
    extract_ip (fun _ => none) ("user".toList ++ '@' :: ("db01".toList ++ ':' :: "22".toList)) =
      "db01".toList :=
  ((extract_ip_spec (fun _ => none) "user".toList "db01".toList "22".toList
    (by decide) (by decide) (by decide)).1).trans (by decide)

/-- C4: the ssh transport command built for the resolved chain (every call
site passes `use_jump = (jump_chain != 'direct')`) always contains the
option pairs `-o StrictHostKeyChecking=accept-new` and
`-o ConnectTimeout=10`; it contains the `-J` directive, whose value is
exactly the comma-joined chain string, iff the chain is not the sentinel
`"direct"` (the directive is omitted entirely when it is); and it contains
`-i <identity>` iff an identity file is configured.  The disequality
hypotheses rule out the degenerate targets/arguments that are themselves the
literal tokens `-J` or `-i`. -/
theorem build_ssh_command_spec (ssh_key : Option Str) (jump_chain target_host : Str)
    (args : List Str)
    (hJt : target_host ≠ "-J".toList) (hJa : "-J".toList ∉ args)
    (hJk : ssh_key ≠ some ("-J".toList))
    (hit : target_host ≠ "-i".toList) (hia : "-i".toList ∉ args)
    (hic : jump_chain ≠ "-i".toList) :
    (∃ s t, build_ssh_command ssh_key jump_chain target_host args (jump_chain != directStr) =
      s ++ ["-o".toList, "StrictHostKeyChecking=accept-new".toList] ++ t) ∧
    (∃ s t, build_ssh_command ssh_key jump_chain target_host args (jump_chain != directStr) =
      s ++ ["-o".toList, "ConnectTimeout=10".toList] ++ t) ∧
    (jump_chain ≠ directStr →
      ∃ s t, build_ssh_command ssh_key jump_chain target_host args (jump_chain != directStr) =
        s ++ ["-J".toList, jump_chain] ++ t) ∧
    ("-J".toList ∈ build_ssh_command ssh_key jump_chain target_host args (jump_chain != directStr)
      ↔ jump_chain ≠ directStr) ∧
    (∀ k, ssh_key = some k →
      ∃ s t, build_ssh_command ssh_key jump_chain target_host args (jump_chain != directStr) =
        s ++ ["-i".toList, k] ++ t) ∧
    ("-i".toList ∈ build_ssh_command ssh_key jump_chain target_host args (jump_chain != directStr)
      ↔ ssh_key.isSome) := by
  cases ssh_key with
  | none =>
    by_cases hd : jump_chain = directStr
    · subst hd
      refine ⟨?_, ?_, fun h => absurd rfl h, ?_, ?_, ?_⟩
      · exact ⟨["ssh".toList],
          "-o".toList :: "ConnectTimeout=10".toList :: target_host :: args,
          by simp [build_ssh_command]⟩
      · exact ⟨["ssh".toList, "-o".toList, "StrictHostKeyChecking=accept-new".toList],
          target_host :: args, by simp [build_ssh_command]⟩
      · simp only [build_ssh_command, List.mem_cons]
        simp
        exact ⟨fun e => hJt e.symm, hJa⟩
      · intro k hk
        exact absurd hk (by simp)
      · simp only [build_ssh_command, List.mem_cons]
        simp
        exact ⟨fun e => hit e.symm, hia⟩
    · refine ⟨?_, ?_, fun _ => ?_, ?_, ?_, ?_⟩
      · exact ⟨["ssh".toList],
          "-o".toList :: "ConnectTimeout=10".toList :: "-J".toList :: jump_chain ::
            target_host :: args, by simp [build_ssh_command, hd]⟩
      · exact ⟨["ssh".toList, "-o".toList, "StrictHostKeyChecking=accept-new".toList],
          "-J".toList :: jump_chain :: target_host :: args,
          by simp [build_ssh_command, hd]⟩
      · exact ⟨["ssh".toList, "-o".toList, "StrictHostKeyChecking=accept-new".toList,
          "-o".toList, "ConnectTimeout=10".toList], target_host :: args,
          by simp [build_ssh_command, hd]⟩
      · simp [build_ssh_command, hd, List.mem_cons]
      · intro k hk
        exact absurd hk (by simp)
      · simp [build_ssh_command, hd, List.mem_cons]
        exact ⟨fun e => hic e.symm, fun e => hit e.symm, hia⟩
  | some k =>
    have hk' : k ≠ "-J".toList := fun e => hJk (by rw [e])
    by_cases hd : jump_chain = directStr
    · subst hd
      refine ⟨?_, ?_, fun h => absurd rfl h, ?_, fun k' hk2 => ?_, ?_⟩
      · exact ⟨["ssh".toList, "-i".toList, k],
          "-o".toList :: "ConnectTimeout=10".toList :: target_host :: args,
          by simp [build_ssh_command]⟩
      · exact ⟨["ssh".toList, "-i".toList, k, "-o".toList,
          "StrictHostKeyChecking=accept-new".toList], target_host :: args,
          by simp [build_ssh_command]⟩
      · simp only [build_ssh_command, List.mem_cons]
        simp
        exact ⟨fun e => hk' e.symm, fun e => hJt e.symm, hJa⟩
      · cases hk2
        exact ⟨["ssh".toList],
          "-o".toList :: "StrictHostKeyChecking=accept-new".toList :: "-o".toList ::
            "ConnectTimeout=10".toList :: target_host :: args,
          by simp [build_ssh_command]⟩
      · simp [build_ssh_command, List.mem_cons]
    · refine ⟨?_, ?_, fun _ => ?_, ?_, fun k' hk2 => ?_, ?_⟩
      · exact ⟨["ssh".toList, "-i".toList, k],
          "-o".toList :: "ConnectTimeout=10".toList :: "-J".toList :: jump_chain ::
            target_host :: args, by simp [build_ssh_command, hd]⟩
      · exact ⟨["ssh".toList, "-i".toList, k, "-o".toList,
          "StrictHostKeyChecking=accept-new".toList],
          "-J".toList :: jump_chain :: target_host :: args,
          by simp [build_ssh_command, hd]⟩
      · exact ⟨["ssh".toList, "-i".toList, k, "-o".toList,
          "StrictHostKeyChecking=accept-new".toList, "-o".toList,
          "ConnectTimeout=10".toList], target_host :: args,
          by simp [build_ssh_command, hd]⟩
      · simp [build_ssh_command, hd, List.mem_cons]
      · cases hk2
        exact ⟨["ssh".toList],
          "-o".toList :: "StrictHostKeyChecking=accept-new".toList :: "-o".toList ::
            "ConnectTimeout=10".toList :: "-J".toList :: jump_chain ::
            target_host :: args, by simp [build_ssh_command, hd]⟩
      · simp [build_ssh_command, hd, List.mem_cons]

/-- Witness for C4: a non-direct two-hop chain with an identity file; the
command contains both forced options, the `-J` directive with the
comma-joined chain, and `-i` with the identity file. -/
theorem build_ssh_command_spec_witness :
    (∃ s t, build_ssh_command (some "key.pem".toList) "jumpA,jumpB".toList
        "user@10.1.2.3".toList ["uptime".toList] ("jumpA,jumpB".toList != directStr) =
      s ++ ["-o".toList, "StrictHostKeyChecking=accept-new".toList] ++ t) ∧
    (∃ s t, build_ssh_command (some "key.pem".toList) "jumpA,jumpB".toList
        "user@10.1.2.3".toList ["uptime".toList] ("jumpA,jumpB".toList != directStr) =
      s ++ ["-o".toList, "ConnectTimeout=10".toList] ++ t) ∧
    (∃ s t, build_ssh_command (some "key.pem".toList) "jumpA,jumpB".toList
        "user@10.1.2.3".toList ["uptime".toList] ("jumpA,jumpB".toList != directStr) =
      s ++ ["-J".toList, "jumpA,jumpB".toList] ++ t) ∧
    ("-J".toList ∈ build_ssh_command (some "key.pem".toList) "jumpA,jumpB".toList
        "user@10.1.2.3".toList ["uptime".toList] ("jumpA,jumpB".toList != directStr)) ∧
    (∃ s t, build_ssh_command (some "key.pem".toList) "jumpA,jumpB".toList
        "user@10.1.2.3".toList ["uptime".toList] ("jumpA,jumpB".toList != directStr) =
      s ++ ["-i".toList, "key.pem".toList] ++ t) := by
  have h := build_ssh_command_spec (some "key.pem".toList) "jumpA,jumpB".toList
    "user@10.1.2.3".toList ["uptime".toList]
    (by decide) (by decide) (by decide) (by decide) (by decide) (by decide)
  exact ⟨h.1, h.2.1, h.2.2.1 (by decide), h.2.2.2.1.mpr (by decide),
    h.2.2.2.2.1 "key.pem".toList rfl⟩

/-- C10: in list mode the router is constructed with target
`'dummy@localhost'`, and the constructor runs `find_route` unconditionally;
if the table has no `"default"` entry and no CIDR entry containing the
address `localhost` resolves to (the `extract_ip` output), the process exits
with code 1 before `list_routes` runs, so nothing is listed. -/
theorem list_mode_route_not_found (dns : Str → Option Str) (routes : List Route)
    (hnd : ∀ r ∈ routes, r.network ≠ some defaultStr)
    (hnc : ∀ r ∈ routes,
      isMatchCandidate (extract_ip dns ("dummy@localhost".toList)) r = false) :
    main_list_mode dns routes = none := by
  have h2 := findRouteAux_no_candidate (extract_ip dns ("dummy@localhost".toList)) routes none hnc
  have h1 : routes.foldl
      (fun acc r => if r.network == some defaultStr then r.via else acc) none = none :=
    lastDefaultVia_eq_none routes hnd
  unfold main_list_mode find_route
  rw [h2, h1]
  rfl

/-- Witness for C10: the table `[{direct → direct}]` (spec scenario 3) has
no default and no CIDR entry, so list mode exits with code 1 and lists
nothing. -/
theorem list_mode_route_not_found_witness :
    main_list_mode (fun _ => none) [⟨some directStr, some directStr⟩] = none :=
  list_mode_route_not_found (fun _ => none) [⟨some directStr, some directStr⟩]
    (by decide) (by decide)

/-- C5: whenever the preflight connectivity probe fails (nonzero exit or
exception, timeout included) and output saving is on, the run never invokes
the command/script transport (no payload run, no upload), goes directly to
terminal Failure, and still persists the partial audit record. -/
theorem run_preflight_failure_spec (env : Env) (cfg : RunConfig) (keep_script : Bool)
    (hsave : env.save_output = true) (hfail : env.connectivity ≠ ProcOutcome.exited 0) :
    (run env cfg keep_script).1 = false ∧
    (run env cfg keep_script).2.2 = [Action.probe, Action.saveAudit] ∧
    Action.runPayload ∉ (run env cfg keep_script).2.2 ∧
    Action.uploadScript ∉ (run env cfg keep_script).2.2 ∧
    Action.saveAudit ∈ (run env cfg keep_script).2.2 := by
  cases hc : env.connectivity with
  | exited c =>
    have hc0 : ¬(c = 0) := fun h => hfail (by rw [hc, h])
    simp [run, test_connectivity, save_output_file, hc, hc0, hsave]
  | failed msg =>
    simp [run, test_connectivity, save_output_file, hc, hsave]

/-- Witness for C5: a timed-out probe on a command run ends in Failure with
only the probe and the audit write in the trace. -/
theorem run_preflight_failure_spec_witness :
    (run ⟨.failed "timed out".toList, .exited 0, .exited 0, [], 0, true⟩
        ⟨some "uptime".toList, none⟩ false).1 = false ∧
    (run ⟨.failed "timed out".toList, .exited 0, .exited 0, [], 0, true⟩
        ⟨some "uptime".toList, none⟩ false).2.2 = [Action.probe, Action.saveAudit] ∧
    Action.runPayload ∉ (run ⟨.failed "timed out".toList, .exited 0, .exited 0, [], 0, true⟩
        ⟨some "uptime".toList, none⟩ false).2.2 ∧
    Action.uploadScript ∉ (run ⟨.failed "timed out".toList, .exited 0, .exited 0, [], 0, true⟩
        ⟨some "uptime".toList, none⟩ false).2.2 ∧
    Action.saveAudit ∈ (run ⟨.failed "timed out".toList, .exited 0, .exited 0, [], 0, true⟩
        ⟨some "uptime".toList, none⟩ false).2.2 :=
  run_preflight_failure_spec ⟨.failed "timed out".toList, .exited 0, .exited 0, [], 0, true⟩
    ⟨some "uptime".toList, none⟩ false rfl (by decide)

/-- C6 counterexample: on a script run whose scp upload exits 1, the result
record's `errors` list stays empty — the code only prints
`"✗ Failed to upload script"` and returns `False`, it appends nothing to
`self.result['errors']` — so the claim that an upload error is recorded in
the errors list is false (the no-execution half does hold: the trace is just
probe, upload, audit write). -/
theorem upload_failure_no_error_recorded :
    (run ⟨.exited 0, .exited 1, .exited 0, [], 0, true⟩
        ⟨none, some "deploy.sh".toList⟩ false).1 = false ∧
    (run ⟨.exited 0, .exited 1, .exited 0, [], 0, true⟩
        ⟨none, some "deploy.sh".toList⟩ false).2.1.errors = [] ∧
    (run ⟨.exited 0, .exited 1, .exited 0, [], 0, true⟩
        ⟨none, some "deploy.sh".toList⟩ false).2.2 =
      [Action.probe, Action.uploadScript, Action.saveAudit] := by
  decide

/-- C6 amended: for every script run whose secure-copy upload returns a
nonzero exit code, the run goes directly to terminal Failure without any
chmod, execution, or cleanup invocation, and the partial audit record is
still persisted; however no upload error is appended to the result's
`errors` list — the failure is reported only on stdout, and the persisted
record is the untouched initial result. -/
theorem upload_failure_spec (env : Env) (cfg : RunConfig) (keep_script : Bool) (uc : Int)
    (hconn : env.connectivity = ProcOutcome.exited 0)
    (hcmd : strTruthy cfg.command = false) (hscr : strTruthy cfg.script = true)
    (hu : env.upload = ProcOutcome.exited uc) (huc : uc ≠ 0)
    (hsave : env.save_output = true) :
    (run env cfg keep_script).1 = false ∧
    (run env cfg keep_script).2.1 = initResult ∧
    (run env cfg keep_script).2.1.errors = [] ∧
    (run env cfg keep_script).2.2 = [Action.probe, Action.uploadScript, Action.saveAudit] ∧
    Action.chmodScript ∉ (run env cfg keep_script).2.2 ∧
    Action.runPayload ∉ (run env cfg keep_script).2.2 ∧
    Action.cleanupScript ∉ (run env cfg keep_script).2.2 := by
  simp [run, test_connectivity, execute_script, save_output_file, hconn, hcmd, hscr, hu, huc,
    hsave, initResult]

/-- Witness for C6's amended statement: upload exit code 2 ends the run in
Failure with trace probe–upload–audit, empty errors list. -/
theorem upload_failure_spec_witness :
    (run ⟨.exited 0, .exited 2, .exited 0, [], 0, true⟩
        ⟨none, some "deploy.sh".toList⟩ true).1 = false ∧
    (run ⟨.exited 0, .exited 2, .exited 0, [], 0, true⟩
        ⟨none, some "deploy.sh".toList⟩ true).2.1 = initResult ∧
    (run ⟨.exited 0, .exited 2, .exited 0, [], 0, true⟩
        ⟨none, some "deploy.sh".toList⟩ true).2.1.errors = [] ∧
    (run ⟨.exited 0, .exited 2, .exited 0, [], 0, true⟩
        ⟨none, some "deploy.sh".toList⟩ true).2.2 =
      [Action.probe, Action.uploadScript, Action.saveAudit] ∧
    Action.chmodScript ∉ (run ⟨.exited 0, .exited 2, .exited 0, [], 0, true⟩
        ⟨none, some "deploy.sh".toList⟩ true).2.2 ∧
    Action.runPayload ∉ (run ⟨.exited 0, .exited 2, .exited 0, [], 0, true⟩
        ⟨none, some "deploy.sh".toList⟩ true).2.2 ∧
    Action.cleanupScript ∉ (run ⟨.exited 0, .exited 2, .exited 0, [], 0, true⟩
        ⟨none, some "deploy.sh".toList⟩ true).2.2 :=
  upload_failure_spec ⟨.exited 0, .exited 2, .exited 0, [], 0, true⟩
    ⟨none, some "deploy.sh".toList⟩ true 2 rfl rfl (by decide) rfl (by decide) rfl

/-- C7 counterexample: on a script run whose execution raises
`TimeoutExpired` (keep flag unset), no cleanup invocation is issued — the
exception jumps over the cleanup block straight to the `except` handler
(there is no `finally`) — so the claim that cleanup is attempted even when
the script exceeds its timeout is false. -/
theorem cleanup_skipped_on_timeout :
    (run ⟨.exited 0, .exited 0, .failed "Command timed out".toList, [], 0, true⟩
        ⟨none, some "deploy.sh".toList⟩ false).2.2 =
      [Action.probe, Action.uploadScript, Action.chmodScript, Action.runPayload,
        Action.saveAudit] ∧
    Action.cleanupScript ∉
      (run ⟨.exited 0, .exited 0, .failed "Command timed out".toList, [], 0, true⟩
        ⟨none, some "deploy.sh".toList⟩ false).2.2 := by
  decide

/-- C7 amended: on a script run with a successful upload, the remote cleanup
invocation is issued iff the script execution returned normally (with any
exit code, zero or not) and the keep flag is unset; when the execution
raises (timeout included) no cleanup is attempted; and the cleanup
invocation's own exit code never influences the run's outcome (the source
discards it). -/
theorem cleanup_spec (env : Env) (cfg : RunConfig) (keep_script : Bool)
    (hconn : env.connectivity = ProcOutcome.exited 0)
    (hcmd : strTruthy cfg.command = false) (hscr : strTruthy cfg.script = true)
    (hu : env.upload = ProcOutcome.exited 0) :
    (∀ ec : Int, env.execution = ProcOutcome.exited ec →
      (Action.cleanupScript ∈ (run env cfg keep_script).2.2 ↔ keep_script = false)) ∧
    (∀ msg, env.execution = ProcOutcome.failed msg →
      Action.cleanupScript ∉ (run env cfg keep_script).2.2) ∧
    (∀ c₁ c₂ : Int,
      run { env with cleanup_exit := c₁ } cfg keep_script =
        run { env with cleanup_exit := c₂ } cfg keep_script) := by
  refine ⟨?_, ?_, ?_⟩
  · intro ec he
    cases keep_script <;>
      simp [run, test_connectivity, execute_script, save_output_file, hconn, hcmd, hscr, hu, he]
  · intro msg he
    simp [run, test_connectivity, execute_script, save_output_file, hconn, hcmd, hscr, hu, he]
  · intro c₁ c₂
    cases env
    rfl

/-- Witness for C7's amended statement: a script exiting 7 (a failed run)
still gets its cleanup invocation when the keep flag is unset. -/
theorem cleanup_spec_witness :
    Action.cleanupScript ∈
      (run ⟨.exited 0, .exited 0, .exited 7, [], 0, true⟩
        ⟨none, some "deploy.sh".toList⟩ false).2.2 :=
  ((cleanup_spec ⟨.exited 0, .exited 0, .exited 7, [], 0, true⟩
      ⟨none, some "deploy.sh".toList⟩ false rfl rfl (by decide) rfl).1 7 rfl).mpr rfl

/-- C9: the finalized result's `success` field is true iff the preflight
probe exited 0, the payload process exited 0, and — for a script run — the
upload exited 0; in particular it stays false after a preflight failure, an
upload failure, or an execution timeout (exception). -/
theorem run_success_iff (env : Env) (cfg : RunConfig) (keep_script : Bool) :
    (run env cfg keep_script).2.1.success = true ↔
      (env.connectivity = ProcOutcome.exited 0 ∧ env.execution = ProcOutcome.exited 0 ∧
        (strTruthy cfg.command = true ∨
          (strTruthy cfg.script = true ∧ env.upload = ProcOutcome.exited 0))) := by
  cases hc : env.connectivity with
  | failed m => simp [run, test_connectivity, save_output_file, hc, initResult]
  | exited c =>
    by_cases hc0 : c = 0
    · subst hc0
      cases hcmd : strTruthy cfg.command with
      | true =>
        cases he : env.execution with
        | exited ec =>
          simp [run, test_connectivity, execute_command, save_output_file, hc, hcmd, he,
            initResult]
        | failed m =>
          simp [run, test_connectivity, execute_command, save_output_file, hc, hcmd, he,
            initResult]
      | false =>
        cases hscr : strTruthy cfg.script with
        | true =>
          cases hu : env.upload with
          | exited uc =>
            by_cases hu0 : uc = 0
            · subst hu0
              cases he : env.execution with
              | exited ec =>
                simp [run, test_connectivity, execute_script, save_output_file, hc, hcmd,
                  hscr, hu, he, initResult]
              | failed m =>
                simp [run, test_connectivity, execute_script, save_output_file, hc, hcmd,
                  hscr, hu, he, initResult]
            · simp [run, test_connectivity, execute_script, save_output_file, hc, hcmd,
                hscr, hu, hu0, initResult]
          | failed m =>
            simp [run, test_connectivity, execute_script, save_output_file, hc, hcmd, hscr,
              hu, initResult]
        | false =>
          simp [run, test_connectivity, save_output_file, hc, hcmd, hscr, initResult]
    · simp [run, test_connectivity, save_output_file, hc, hc0, initResult]

end SSHRouterSpec

namespace SSHJumpExecutor

open SSHRouterSpec

/-- C8: in every `ssh_jump_exec.py` run, the persisted result's
`remote_script_path` field is populated only on the script payload path and
only once the upload has exited 0 (first conjunct — whenever it holds
`some p`, the run was a script run, the probe and the upload succeeded, and
`p` is the pid-stamped temporary path); and once the upload has succeeded
and the execution returns an exit code, the field is set for **every** exit
code, zero or not (second conjunct).  (`ssh_router.py`'s own result record
has no remote-script-path field at all — see `ResultState` — so it
satisfies the "only…" half vacuously; this theorem is about the executor
that carries the field, at `ssh_jump_exec.py` lines 197–200.) -/
theorem remote_script_path_spec (env : JEnv) (cfg : RunConfig) (keep_script : Bool) :
    (∀ p, (run env cfg keep_script).2.1.remote_script_path = some p →
      strTruthy cfg.command = false ∧ strTruthy cfg.script = true ∧
      env.connectivity = ProcOutcome.exited 0 ∧ env.upload = ProcOutcome.exited 0 ∧
      p = remoteScriptPath env.script_name env.pid) ∧
    (∀ ec : Int, strTruthy cfg.command = false → strTruthy cfg.script = true →
      env.connectivity = ProcOutcome.exited 0 → env.upload = ProcOutcome.exited 0 →
      env.execution = ProcOutcome.exited ec →
      (run env cfg keep_script).2.1.remote_script_path =
        some (remoteScriptPath env.script_name env.pid)) := by
  constructor
  · intro p hp
    cases hc : env.connectivity with
    | failed m => simp [run, test_connectivity, save_output_file, hc, initJResult] at hp
    | exited c =>
      by_cases hc0 : c = 0
      · subst hc0
        cases hcmd : strTruthy cfg.command with
        | true =>
          cases he : env.execution with
          | exited ec =>
            simp [run, test_connectivity, execute_command, save_output_file, hc, hcmd, he,
              initJResult] at hp
          | failed m =>
            simp [run, test_connectivity, execute_command, save_output_file, hc, hcmd, he,
              initJResult] at hp
        | false =>
          cases hscr : strTruthy cfg.script with
          | false =>
            simp [run, test_connectivity, save_output_file, hc, hcmd, hscr, initJResult] at hp
          | true =>
            cases hu : env.upload with
            | failed m =>
              simp [run, test_connectivity, execute_script, save_output_file, hc, hcmd, hscr,
                hu, initJResult] at hp
            | exited uc =>
              by_cases hu0 : uc = 0
              · subst hu0
                cases he : env.execution with
                | failed m =>
                  simp [run, test_connectivity, execute_script, save_output_file, hc, hcmd,
                    hscr, hu, he, initJResult] at hp
                | exited ec =>
                  simp [run, test_connectivity, execute_script, save_output_file, hc, hcmd,
                    hscr, hu, he, initJResult] at hp
                  exact ⟨rfl, rfl, rfl, rfl, hp.symm⟩
              · simp [run, test_connectivity, execute_script, save_output_file, hc, hcmd,
                  hscr, hu, hu0, initJResult] at hp
      · simp [run, test_connectivity, save_output_file, hc, hc0, initJResult] at hp
  · intro ec hcmd hscr hconn hu he
    simp [run, test_connectivity, execute_script, save_output_file, hconn, hcmd, hscr, hu, he]

/-- Witness for C8: a script run whose script exits 5 (a failed run) still
carries the pid-stamped remote path `/tmp/deploy.sh.4242` in its result. -/
theorem remote_script_path_spec_witness :
    (run ⟨.exited 0, .exited 0, [], .exited 5, [], "deploy.sh".toList, 4242, true⟩
        ⟨none, some "deploy.sh".toList⟩ false).2.1.remote_script_path =
      some ("/tmp/deploy.sh.4242".toList) :=
  ((remote_script_path_spec ⟨.exited 0, .exited 0, [], .exited 5, [], "deploy.sh".toList,
      4242, true⟩ ⟨none, some "deploy.sh".toList⟩ false).2 5
    rfl (by decide) rfl rfl rfl).trans (by decide)

end SSHJumpExecutor
